import Mathlib

/-!
Verification of the Experience Renderer of the personal-blog repository.

The embedding models:
- `ExperienceEntry`: the record shape consumed by the renderer, with `link`
  optional so that both revisions of the data file are covered (the earliest
  revision of `experienceData` has no `link` field; a missing field reads as
  `undefined` in the rendering code).
- `Experience`: the later revision's declared TypeScript type, in which
  `link : string` is a required field.
- `Node`: a renderable element tree mirroring the JSX produced by `Page` in
  `src/app/about/page.tsx` for the experience section.
- `renderCard` / `renderExperience`: the `experienceData.map((exp, idx) => ...)`
  loop of `Page`, embedded with explicit threading of the receiver list so the
  frame property (no mutation of the input) is expressible.
-/

/-- The record shape consumed by the renderer. `link` is `Option String`
because the earliest revision of `experienceData` has no `link` field and the
rendering code reads `exp.link` regardless (an absent field is `undefined` in
JavaScript, modelled as `none`). -/
structure ExperienceEntry where
  company : String
  date : String
  location : String
  jobTitle : String
  logo : String
  link : Option String
deriving DecidableEq

/-- The `Experience` type declared in the later revision of the data file:
`link : string` is a required field there. -/
structure Experience where
  company : String
  date : String
  location : String
  jobTitle : String
  logo : String
  link : String
deriving DecidableEq

/-- View a later-revision entry as renderer input: every field present,
`link` carried as `some`. -/
def Experience.toEntry (e : Experience) : ExperienceEntry :=
  { company := e.company, date := e.date, location := e.location,
    jobTitle := e.jobTitle, logo := e.logo, link := some e.link }

/-- Whether an entry conforms to the later revision's declared `Experience`
type, which requires a `link` string to be present. -/
def conformsToV2 (e : ExperienceEntry) : Bool :=
  e.link.isSome

/-- The earliest revision of `experienceData` (src/unnamed/part_000): four
entries, none of which has a `link` field. -/
def experienceDataV1 : List ExperienceEntry :=
  [ { company := "Capital One",
      date := "Jun 2024 - Aug 2024",
      location := "Plano, TX",
      jobTitle := "Software Engineer Intern",
      logo := "capital-one-logo.jpeg",
      link := none },
    { company := "Cubic Transportation Systems",
      date := "Jun 2023 - Sep 2023",
      location := "San Diego, CA",
      jobTitle := "Software Engineer Intern",
      logo := "cubic-transportation-systems.jpeg",
      link := none },
    { company := "General Atomics / DIII-D",
      date := "Jan 2023 - May 2023",
      location := "San Diego, CA",
      jobTitle := "Software Engineer Intern",
      logo := "general-atomics.png",
      link := none },
    { company := "San Diego Mesa College",
      date := "Feb 2022 - May 2023",
      location := "San Diego, CA",
      jobTitle := "Math Peer Mentor",
      logo := "mesa-college.png",
      link := none } ]

/-- The later revision of `experienceData` (src/unnamed/part_001), typed as
`Experience[]`: the same four entries, each now with a `link`. -/
def experienceData : List Experience :=
  [ { company := "Capital One",
      date := "Jun 2024 - Aug 2024",
      location := "Plano, TX",
      jobTitle := "Software Engineer Intern",
      logo := "capital-one-logo.jpeg",
      link := "https://www.capitalonecareers.com/internship-programs" },
    { company := "Cubic Transportation Systems",
      date := "Jun 2023 - Sep 2023",
      location := "San Diego, CA",
      jobTitle := "Software Engineer Intern",
      logo := "cubic-transportation-systems.jpeg",
      link := "https://www.cubic.com/transportation" },
    { company := "General Atomics / DIII-D",
      date := "Jan 2023 - May 2023",
      location := "San Diego, CA",
      jobTitle := "Software Engineer Intern",
      logo := "general-atomics.png",
      link := "https://www.ga.com/magnetic-fusion/diii-d" },
    { company := "San Diego Mesa College",
      date := "Feb 2022 - May 2023",
      location := "San Diego, CA",
      jobTitle := "Math Peer Mentor",
      logo := "mesa-college.png",
      link := "https://www.sdmesa.edu/academics/stem/stem-mentors.shtml" } ]

/-- A renderable element tree: an element with a tag, an ordered attribute
list and children, or a text leaf. Mirrors the JSX output shape. -/
inductive Node where
  | element : String → List (String × String) → List Node → Node
  | text : String → Node

/-- JavaScript template-literal coercion of a possibly-absent string, as in
the source's backtick interpolation of `exp.link`: an absent (`undefined`)
value interpolates to the literal string "undefined". -/
def jsTemplate : Option String → String
  | some s => s
  | none => "undefined"

/-- The card (and its unconditional anchor wrapper) produced for one entry by
the `experienceData.map((exp, idx) => ...)` body in `Page`
(src/app/about/page.tsx, lines 20-41), transcribed element by element. -/
def renderCard (exp : ExperienceEntry) (idx : Nat) : Node :=
  .element "a"
    [("key", toString idx),
     ("href", jsTemplate exp.link),
     ("target", "_blank"),
     ("style", "textDecoration: inherit; color: inherit")]
    [.element "div"
       [("className", "w-full p-3 border-2 border-cyan-400 dark:border-cyan-700 h-[100px] hover:bg-cyan-400 hover:dark:bg-cyan-700 hover:cursor-pointer hover:h-[120px] rounded-md flex gap-5 items-center transition-all duration-300 ease-in-out")]
       [.element "img"
          [("className", "m-0 w-16 rounded-full"),
           ("src", "/static/images/" ++ exp.logo)]
          [],
        .element "div" [("className", "flex flex-col w-full")]
          [.element "div" [("className", "flex justify-between font-bold")]
             [.element "span" [] [.text exp.company],
              .element "span" [] [.text exp.date]],
           .element "div" [("className", "flex justify-between italic")]
             [.element "span" [] [.text exp.jobTitle],
              .element "span" [] [.text exp.location]]]]]

/-- The semantics of `Array.prototype.map` with the index callback, with the
receiver array threaded explicitly: the first component is the list of
produced elements, the second the receiver as observable after the call (the
callback only reads `exp`, so each element is stored back unchanged). -/
def jsMapIdx {α β : Type} (f : α → Nat → β) : List α → Nat → List β × List α
  | [], _ => ([], [])
  | a :: as, i =>
    let r := jsMapIdx f as (i + 1)
    (f a i :: r.1, a :: r.2)

/-- The experience section of `Page`: map `renderCard` over the entries with
indices starting at 0, keeping the produced card list. -/
def renderExperience (xs : List ExperienceEntry) : List Node :=
  (jsMapIdx renderCard xs 0).1

/-- Tag of an element node; "" for a text leaf. -/
def topTag : Node → String
  | .element t _ _ => t
  | .text _ => ""

/-- Attribute list of an element node. -/
def attrsOf : Node → List (String × String)
  | .element _ a _ => a
  | .text _ => []

/-- Children of an element node. -/
def childrenOf : Node → List Node
  | .element _ _ c => c
  | .text _ => []

/-- First value bound to attribute key `k`. -/
def attrLookup (k : String) (attrs : List (String × String)) : Option String :=
  (attrs.find? (fun p => p.1 = k)).map (fun p => p.2)

/-- The `i`-th child of a node (empty text if out of range). -/
def childAt (n : Node) (i : Nat) : Node :=
  (childrenOf n).getD i (.text "")

/-- The `img` element of a rendered card: first child of the outer div. -/
def cardImg (c : Node) : Node :=
  childAt (childAt c 0) 0

/-- The first text row (company / date) of a rendered card. -/
def cardRow1 (c : Node) : Node :=
  childAt (childAt (childAt c 0) 1) 0

/-- The second text row (job title / location) of a rendered card. -/
def cardRow2 (c : Node) : Node :=
  childAt (childAt (childAt c 0) 1) 1

/-- Text content of a text leaf; "" for an element. -/
def textOf : Node → String
  | .text s => s
  | .element _ _ _ => ""

/-- Text of the `i`-th span of a row node. -/
def spanText (row : Node) (i : Nat) : String :=
  textOf (childAt (childAt row i) 0)

/-- Company text of a rendered card. -/
def cardCompany (c : Node) : String := spanText (cardRow1 c) 0

/-- Date text of a rendered card. -/
def cardDate (c : Node) : String := spanText (cardRow1 c) 1

/-- Job-title text of a rendered card. -/
def cardJobTitle (c : Node) : String := spanText (cardRow2 c) 0

/-- Location text of a rendered card. -/
def cardLocation (c : Node) : String := spanText (cardRow2 c) 1

/-- A default entry for out-of-range list access in concrete statements. -/
def dummyEntry : ExperienceEntry :=
  { company := "", date := "", location := "", jobTitle := "", logo := "",
    link := none }

/-! ## Helper lemmas about the embedded map loop -/

theorem jsMapIdx_fst_length {α β : Type} (f : α → Nat → β) (xs : List α)
    (n : Nat) : (jsMapIdx f xs n).1.length = xs.length := by
  induction xs generalizing n with
  | nil => rfl
  | cons a as ih => simp [jsMapIdx, ih]

theorem jsMapIdx_fst_getElem? {α β : Type} (f : α → Nat → β) (xs : List α)
    (n i : Nat) :
    (jsMapIdx f xs n).1[i]? = (xs[i]?).map (fun a => f a (n + i)) := by
  induction xs generalizing n i with
  | nil => simp [jsMapIdx]
  | cons a as ih =>
    cases i with
    | zero => simp [jsMapIdx]
    | succ j =>
      have h : n + (j + 1) = (n + 1) + j := by omega
      simp [jsMapIdx, h, ih]

theorem jsMapIdx_snd {α β : Type} (f : α → Nat → β) (xs : List α) (n : Nat) :
    (jsMapIdx f xs n).2 = xs := by
  induction xs generalizing n with
  | nil => rfl
  | cons a as ih => simp [jsMapIdx, ih]

/-! ## Concrete fixtures used in closed statements -/

/-- The rendered output of the current (later-revision) fixture. -/
def renderedFixture : List Node :=
  renderExperience (experienceData.map Experience.toEntry)

/-- The `i`-th rendered card of the fixture (empty text if out of range). -/
def fixtureCard (i : Nat) : Node :=
  renderedFixture.getD i (.text "")

/-- The first entry of the earliest-revision fixture (it has no link). -/
def firstEntryV1 : ExperienceEntry :=
  experienceDataV1.headD dummyEntry

/-- The first entry of the later-revision fixture, as renderer input. -/
def firstEntryV2 : ExperienceEntry :=
  (experienceData.map Experience.toEntry).headD dummyEntry

/-! ## Claims -/

/-- C1: for every input sequence of entries, the renderer produces exactly as
many card elements as there are entries, and the `i`-th card is rendered from
the `i`-th input entry (order preserved). -/
theorem C1_render_length_and_order (xs : List ExperienceEntry) :
    (renderExperience xs).length = xs.length ∧
    ∀ i : Nat, (renderExperience xs)[i]? = (xs[i]?).map (fun e => renderCard e i) := by
  constructor
  · simpa [renderExperience] using jsMapIdx_fst_length renderCard xs 0
  · intro i
    simpa [renderExperience] using jsMapIdx_fst_getElem? renderCard xs 0 i

/-- C2 counterexample: the first earliest-revision entry has no `link`, yet
its rendered card is wrapped in an anchor element — refuting the claim that a
card of a link-less entry contains no anchor wrapper. -/
theorem C2_counterexample :
    firstEntryV1.link = none ∧ topTag (renderCard firstEntryV1 0) = "a" :=
  ⟨rfl, rfl⟩

/-- C2 amended: the renderer wraps every card in an anchor unconditionally,
whether or not the entry has a `link`; no inert card exists. -/
theorem C2_always_anchor (e : ExperienceEntry) (idx : Nat) :
    topTag (renderCard e idx) = "a" :=
  rfl

/-- C3 counterexample: the anchor rendered for the first fixture entry (which
has a `link`) carries exactly the attributes key, href, target and style — in
particular no `rel` attribute, so no attribute blocks the opener
back-reference. -/
theorem C3_counterexample :
    (attrsOf (renderCard firstEntryV2 0)).map Prod.fst =
      ["key", "href", "target", "style"] ∧
    attrLookup "rel" (attrsOf (renderCard firstEntryV2 0)) = none :=
  ⟨rfl, rfl⟩

/-- C3 amended: for every entry with a `link`, the rendered hyperlink opens in
a new viewing context (`target="_blank"`) but carries no `rel` attribute: the
markup itself does nothing to stop the new context from obtaining the opener
reference. -/
theorem C3_target_blank_without_rel (e : ExperienceEntry) (idx : Nat)
    (s : String) (h : e.link = some s) :
    attrLookup "target" (attrsOf (renderCard e idx)) = some "_blank" ∧
    attrLookup "rel" (attrsOf (renderCard e idx)) = none := by
  obtain ⟨c, d, loc, j, lg, lk⟩ := e
  simp only at h
  subst h
  exact ⟨rfl, rfl⟩

/-- C3 witness: the amended statement instantiated at the first fixture
entry. -/
theorem C3_witness :
    firstEntryV2.link = some "https://www.capitalonecareers.com/internship-programs" ∧
    (attrLookup "target" (attrsOf (renderCard firstEntryV2 0)) = some "_blank" ∧
     attrLookup "rel" (attrsOf (renderCard firstEntryV2 0)) = none) :=
  ⟨rfl, C3_target_blank_without_rel firstEntryV2 0 _ rfl⟩

/-- C4: for every entry with a `link`, the rendered anchor's href equals the
entry's `link` string exactly, with no transformation. -/
theorem C4_href_exact (e : ExperienceEntry) (idx : Nat) (s : String)
    (h : e.link = some s) :
    attrLookup "href" (attrsOf (renderCard e idx)) = some s := by
  obtain ⟨c, d, loc, j, lg, lk⟩ := e
  simp only at h
  subst h
  rfl

/-- C4 witness: the href of the first fixture entry's card is its `link`
string, verbatim. -/
theorem C4_witness :
    firstEntryV2.link = some "https://www.capitalonecareers.com/internship-programs" ∧
    attrLookup "href" (attrsOf (renderCard firstEntryV2 0)) =
      some "https://www.capitalonecareers.com/internship-programs" :=
  ⟨rfl, C4_href_exact firstEntryV2 0 _ rfl⟩

/-- C5: for every entry, the logo image reference of its rendered card is the
fixed base path "/static/images/" concatenated with the entry's `logo` field,
with no escaping or validation. -/
theorem C5_logo_src (e : ExperienceEntry) (idx : Nat) :
    attrLookup "src" (attrsOf (cardImg (renderCard e idx))) =
      some ("/static/images/" ++ e.logo) :=
  rfl

/-- C6: rendering is deterministic with no hidden state — rendering depends
only on the input list, so two renderings of the same sequence are equal. -/
theorem C6_deterministic (xs ys : List ExperienceEntry) (h : xs = ys) :
    renderExperience xs = renderExperience ys := by
  rw [h]

/-- C6 witness: the determinism statement at the fixture entry list. -/
theorem C6_witness :
    experienceData.map Experience.toEntry = experienceData.map Experience.toEntry ∧
    renderExperience (experienceData.map Experience.toEntry) =
      renderExperience (experienceData.map Experience.toEntry) :=
  ⟨rfl, C6_deterministic (experienceData.map Experience.toEntry)
    (experienceData.map Experience.toEntry) rfl⟩

/-- C7: rendering the four-entry fixture produces exactly four cards in the
order Capital One, Cubic Transportation Systems, General Atomics / DIII-D,
San Diego Mesa College, and each card's company, date, job-title and location
text equals the corresponding entry's fields. -/
theorem C7_fixture_rendering :
    renderedFixture.length = 4 ∧
    cardCompany (fixtureCard 0) = "Capital One" ∧
    cardDate (fixtureCard 0) = "Jun 2024 - Aug 2024" ∧
    cardJobTitle (fixtureCard 0) = "Software Engineer Intern" ∧
    cardLocation (fixtureCard 0) = "Plano, TX" ∧
    cardCompany (fixtureCard 1) = "Cubic Transportation Systems" ∧
    cardDate (fixtureCard 1) = "Jun 2023 - Sep 2023" ∧
    cardJobTitle (fixtureCard 1) = "Software Engineer Intern" ∧
    cardLocation (fixtureCard 1) = "San Diego, CA" ∧
    cardCompany (fixtureCard 2) = "General Atomics / DIII-D" ∧
    cardDate (fixtureCard 2) = "Jan 2023 - May 2023" ∧
    cardJobTitle (fixtureCard 2) = "Software Engineer Intern" ∧
    cardLocation (fixtureCard 2) = "San Diego, CA" ∧
    cardCompany (fixtureCard 3) = "San Diego Mesa College" ∧
    cardDate (fixtureCard 3) = "Feb 2022 - May 2023" ∧
    cardJobTitle (fixtureCard 3) = "Math Peer Mentor" ∧
    cardLocation (fixtureCard 3) = "San Diego, CA" :=
  ⟨rfl, rfl, rfl, rfl, rfl, rfl, rfl, rfl, rfl, rfl, rfl, rfl, rfl, rfl,
   rfl, rfl, rfl⟩

/-- C8: the rendering pass has no side effect on its input: the receiver
list observable after the map loop equals the input, and the produced output
is exactly the card list — no other state is involved. -/
theorem C8_no_mutation (xs : List ExperienceEntry) :
    renderExperience xs = (jsMapIdx renderCard xs 0).1 ∧
    (jsMapIdx renderCard xs 0).2 = xs :=
  ⟨rfl, jsMapIdx_snd renderCard xs 0⟩

/-- C9 counterexample: a link-less entry (the first earliest-revision entry)
does not conform to the later revision's declared `Experience` type, in which
`link` is a required string — refuting the claim that `link` is optional in
every revision of the data model. -/
theorem C9_counterexample :
    firstEntryV1.link = none ∧ conformsToV2 firstEntryV1 = false :=
  ⟨rfl, rfl⟩

/-- C9 amended: `company`, `date`, `location`, `jobTitle` and `logo` are
required in both revisions; `link` is absent from every entry of the earliest
revision and is a required field of the later revision's `Experience` type —
only an implementation spanning both revisions must accept entries without a
`link`. -/
theorem C9_link_presence_by_revision :
    experienceDataV1.all (fun e => e.link.isNone) = true ∧
    ∀ e : Experience, conformsToV2 (Experience.toEntry e) = true :=
  ⟨rfl, fun _ => rfl⟩

/-- C10: for every entry whose `link` is absent, the renderer still emits an
anchor wrapper, and template-literal interpolation of the missing field makes
that anchor's href the literal string "undefined". -/
theorem C10_undefined_href (e : ExperienceEntry) (idx : Nat)
    (h : e.link = none) :
    topTag (renderCard e idx) = "a" ∧
    attrLookup "href" (attrsOf (renderCard e idx)) = some "undefined" := by
  obtain ⟨c, d, loc, j, lg, lk⟩ := e
  simp only at h
  subst h
  exact ⟨rfl, rfl⟩

/-- C10 witness: the first earliest-revision entry has no `link`, and its
rendered anchor's href is the literal string "undefined". -/
theorem C10_witness :
    firstEntryV1.link = none ∧
    (topTag (renderCard firstEntryV1 0) = "a" ∧
     attrLookup "href" (attrsOf (renderCard firstEntryV1 0)) = some "undefined") :=
  ⟨rfl, C10_undefined_href firstEntryV1 0 rfl⟩
